import Mathlib

/-!
Verification of the tele2tube repository (two Python scripts,
`process_videos.py` and `uploader_script.py`) against its natural-language
specification.

The scripts are shallowly embedded: every step that performs I/O (Telegram
resolution, media download, YouTube calls) is modelled by an environment
record that fixes that step's outcome, and the scripts' control flow
(the `try`/`except`/`finally` structure, the per-item loop, the chunked
upload loop with its retry counter) is translated statement by statement
into total Lean functions over those environments.  Components the spec
describes but the sources do not contain (the Segment Planner and the
Progress Aggregator) are modelled from the spec's own words; their doc
comments say so explicitly.

Naming convention: `pv_` marks definitions embedding `process_videos.py`,
`us_` marks definitions embedding `uploader_script.py`.
-/

/-- Kinds of Python exception relevant to the claims.  All of these derive
from Python's `Exception`, so every one of them is caught by the scripts'
bare `except Exception` clauses; `quotaError` / `authError` stand for the
quota and auth failures the spec calls fatal. -/
inductive PyError where
  | quotaError
  | authError
  | fileError
  | other
deriving DecidableEq, Repr

/-! ## Embedding of `process_videos.py`, `main` (lines 149-257)

The per-item body of the `for link in VIDEO_LINKS` loop is one `try`
block: parse the link, fetch the message, analyze the caption, download
the media, run the inline chunked upload loop, best-effort playlist
registration, then the cleanup `os.remove` — and a single
`except Exception` that logs and falls through to the next item. -/

/-- Outcome of the inline upload loop of `process_videos.py` (lines
218-222): either some call raised (the exception propagates to the
item-level `except`), or the loop finished with a final response whose
`id` key is `videoId` (`response.get('id')`, possibly absent). -/
inductive PvUpload where
  | raises (k : PyError)
  | completes (videoId : Option String)
deriving DecidableEq, Repr

/-- Environment fixing the outcome of every external call made while
processing one item of `process_videos.py`'s batch. -/
structure ItemEnv where
  /-- `parse_telegram_link` + `get_messages` succeed (a failure raises). -/
  parseOk : Bool
  /-- `message` is truthy and `message.media` is present (lines 178-180). -/
  hasMedia : Bool
  /-- `analyze_content` raises (its `genai.Client` construction at line 42
  sits outside its internal `try`). -/
  analyzeRaises : Bool
  /-- result of `client.download_media` (line 190): the produced local
  path, or `none` when the download raises. -/
  downloadResult : Option String
  /-- outcome of the upload loop (lines 211-225). -/
  uploadOutcome : PvUpload
  /-- the playlist insert (lines 230-242) succeeds; its failure is caught
  at line 244 and only printed. -/
  playlistOk : Bool

/-- How one item of the batch terminated. -/
inductive ItemResult where
  | skippedNoMedia
  | success (videoId : Option String)
  | failed (k : PyError)
deriving DecidableEq, Repr

/-- Observable effects of processing one item. -/
structure ItemOutcome where
  result : ItemResult
  /-- the YouTube upload request was built and its loop entered. -/
  uploaderInvoked : Bool
  /-- `download_media` returned a local file path. -/
  fileCreated : Bool
  /-- the cleanup `os.remove` at line 249 ran. -/
  fileDeleted : Bool
  /-- the playlist insert was reached and succeeded. -/
  addedToPlaylist : Bool
deriving DecidableEq, Repr

/-- One iteration of `process_videos.py`'s `main` loop (lines 165-255),
step by step.  Each early branch is an exception caught by the
item-level `except Exception` (lines 252-255) — which performs no file
cleanup — or the `continue` at line 180.  The cleanup at lines 247-250
is the last statement of the `try` block, so it runs only when every
step before it returned normally. -/
def pv_processItem (env : ItemEnv) : ItemOutcome :=
  if env.parseOk = false then
    ⟨.failed .other, false, false, false, false⟩
  else if env.hasMedia = false then
    ⟨.skippedNoMedia, false, false, false, false⟩
  else if env.analyzeRaises then
    ⟨.failed .other, false, false, false, false⟩
  else
    match env.downloadResult with
    | none => ⟨.failed .other, false, false, false, false⟩
    | some _ =>
      match env.uploadOutcome with
      | .raises k =>
        -- the exception skips the cleanup at lines 247-250
        ⟨.failed k, true, true, false, false⟩
      | .completes vid =>
        -- playlist step guarded by `if video_id:` (line 228), its failure
        -- caught at line 244; cleanup then runs at lines 247-250
        ⟨.success vid, true, true, true, vid.isSome && env.playlistOk⟩

/-- The batch loop of `main` (line 165): items strictly one at a time; the
item-level `except Exception` means every item's processing runs to its
own end before the loop advances, whatever the previous item did.
(Skipping blank links at line 167 is glue outside this model: the batch
is the list of non-blank items.) -/
def pv_main : List ItemEnv → List ItemOutcome
  | [] => []
  | env :: rest => pv_processItem env :: pv_main rest

/-! ## Embedding of `uploader_script.py`, `upload_video` (lines 96-152)

`upload_video` builds a `MediaFileUpload` and an insert request (lines
112-119, outside any `try`), then loops `while response is None`,
calling `request.next_chunk()` under a `try` whose `except Exception`
increments a retry counter (bound `MAX_RETRIES = 5`), sleeps
`2 ** retry` seconds and loops again.  The resumable request object
retries the current chunk: earlier, acknowledged chunks are never
resent and the session is never re-initiated. -/

/-- `MAX_RETRIES` of `upload_video` (line 124). -/
def maxRetries : Nat := 5

/-- Environment fixing the behaviour of the remote service during one
upload: the file is split by the library into `totalChunks` chunks
(`chunksize=-1` at line 112 makes this 1 in practice, but the loop is
chunk-count generic); the `n`-th call of `request.next_chunk()` raises
the given exception, or succeeds when `none`; the final response
contains an `id` key iff `finalHasId`, with value `videoId`. -/
structure UploadEnv where
  totalChunks : Nat
  err : Nat → Option PyError
  finalHasId : Bool
  videoId : String

/-- Observable run of the upload loop: the returned value of
`upload_video` (`some id` or `None`), the chunk index submitted by each
successive `next_chunk` call, and the `time.sleep` durations performed
(in seconds, `2 ** retry` at line 148). -/
structure UploadRun where
  result : Option String
  submitted : List Nat
  sleeps : List Nat
deriving DecidableEq, Repr

/-- The `while response is None` loop of `upload_video` (lines 126-151).
`call` counts `next_chunk` invocations, `c` is the chunk the resumable
session will (re)submit, `retry` the retry counter.  A raising call
increments `retry`; past `maxRetries` the loop breaks and the function
returns `None` (lines 143-145).  A successful non-final call advances
the session by one chunk, returning `response = None`; the final call
returns the response: with an `id` key the id is returned (line 136),
without one the `raise` at line 138 is caught by the loop's own
`except`, and since `response` is now not `None` the loop exits and
returns `None` (after one more sleep if the budget allows). -/
def uploadChunkLoop (env : UploadEnv) (call c retry : Nat) : UploadRun :=
  match env.err call with
  | some _ =>
    if h : retry + 1 > maxRetries then
      ⟨none, [c], []⟩
    else
      let rest := uploadChunkLoop env (call + 1) c (retry + 1)
      ⟨rest.result, c :: rest.submitted, 2 ^ (retry + 1) :: rest.sleeps⟩
  | none =>
    if h : c + 1 < env.totalChunks then
      let rest := uploadChunkLoop env (call + 1) (c + 1) retry
      ⟨rest.result, c :: rest.submitted, rest.sleeps⟩
    else
      if env.finalHasId then
        ⟨some env.videoId, [c], []⟩
      else if retry + 1 > maxRetries then
        ⟨none, [c], []⟩
      else
        ⟨none, [c], [2 ^ (retry + 1)]⟩
termination_by (env.totalChunks - c) + (maxRetries + 1 - retry)
decreasing_by
  · simp only [maxRetries] at *
    omega
  · omega

/-- `upload_video` (lines 96-152): the setup at lines 112-119
(`MediaFileUpload` opens the local file; the insert request is built)
stands outside any `try`, so a setup failure propagates to the caller;
otherwise the loop runs and its value is returned. -/
def upload_video (setup : Option PyError) (env : UploadEnv) :
    Except PyError (Option String) :=
  match setup with
  | some e => Except.error e
  | none => Except.ok (uploadChunkLoop env 0 0 0).result

/-! ## Embedding of `process_videos.py`'s inline upload loop (lines 218-222)

The same `while response is None` pattern without any retry: an
exception from `next_chunk` propagates straight to the item-level
`except`. -/

/-- Environment for the inline loop: `errAt c` says the call submitting
chunk `c` raises; `finalId` is `response.get('id')` of the final
response. -/
structure PvUploadEnv where
  totalChunks : Nat
  errAt : Nat → Bool
  finalId : Option String

/-- The inline upload loop of `process_videos.py` (lines 218-222):
result (`Except.error` = the exception propagates) and the chunk index
submitted by each successive `next_chunk` call. -/
def pvUploadChunkLoop (env : PvUploadEnv) (c : Nat) :
    Except PyError (Option String) × List Nat :=
  if env.errAt c then
    (Except.error .other, [c])
  else if h : c + 1 < env.totalChunks then
    let rest := pvUploadChunkLoop env (c + 1)
    (rest.1, c :: rest.2)
  else
    (Except.ok env.finalId, [c])
termination_by env.totalChunks - c

/-! ## Embedding of `uploader_script.py`, `download_video_and_upload`
(lines 155-226)

Secrets check and link parse (both `sys.exit(1)` on failure) precede a
`try` / `except Exception` / `finally` block; the `finally` (lines
220-226) disconnects the client and removes the downloaded file
whenever `downloaded_filepath` was assigned and exists — it runs on
normal return, on caught exceptions, and on the `SystemExit` raised by
`get_youtube_service`'s `sys.exit(1)` (line 93), which `except
Exception` does not catch. -/

/-- Environment fixing every external call of one
`download_video_and_upload` run. -/
structure UsEnv where
  /-- all six environment secrets are set (lines 168-172). -/
  secretsOk : Bool
  /-- `parse_telegram_link` succeeds (it `sys.exit(1)`s on failure). -/
  parseOk : Bool
  /-- `client.start()` succeeds (line 189). -/
  connectOk : Bool
  /-- `get_messages` succeeds (line 194). -/
  messageOk : Bool
  /-- the message carries a `MessageMediaDocument` (line 197). -/
  hasMediaDoc : Bool
  /-- `download_media` raises (line 206). -/
  downloadRaises : Bool
  /-- `get_youtube_service` fails and calls `sys.exit(1)` (line 93). -/
  authExits : Bool
  /-- outcome of the `upload_video` call at line 215 (`Except.error` =
  it raised, which per its own model happens only in its setup). -/
  uploadResult : Except PyError (Option String)

/-- How `download_video_and_upload` terminated. -/
inductive UsResult where
  | exitedMissingSecrets
  | exitedBadLink
  | caughtError (k : PyError)
  | returnedNoMedia
  | systemExit
  | finished (r : Option String)
deriving DecidableEq, Repr

/-- Observable effects of one `download_video_and_upload` run. -/
structure UsOutcome where
  result : UsResult
  uploaderInvoked : Bool
  fileCreated : Bool
  fileDeleted : Bool
deriving DecidableEq, Repr

/-- `download_video_and_upload` (lines 155-226), step by step.  Every
branch that enters the `try` block passes through the `finally`, which
deletes the downloaded file whenever one was recorded — including the
`return` at line 201, caught exceptions, and the un-caught `SystemExit`
from `get_youtube_service`. -/
def download_video_and_upload (env : UsEnv) : UsOutcome :=
  if env.secretsOk = false then
    ⟨.exitedMissingSecrets, false, false, false⟩
  else if env.parseOk = false then
    ⟨.exitedBadLink, false, false, false⟩
  else if env.connectOk = false then
    ⟨.caughtError .other, false, false, false⟩
  else if env.messageOk = false then
    ⟨.caughtError .other, false, false, false⟩
  else if env.hasMediaDoc = false then
    ⟨.returnedNoMedia, false, false, false⟩
  else if env.downloadRaises then
    -- download_media raised before assigning downloaded_filepath;
    -- the finally has no recorded file to remove
    ⟨.caughtError .other, false, false, false⟩
  else if env.authExits then
    -- SystemExit skips the except but still runs the finally
    ⟨.systemExit, false, true, true⟩
  else
    match env.uploadResult with
    | Except.error k => ⟨.caughtError k, true, true, true⟩
    | Except.ok r => ⟨.finished r, true, true, true⟩

/-! ## Embedding of the two link parsers

The Python string primitives the parsers use (`strip`, `replace`,
`split`, `int(...)`, `str(...)`) are given explicit structural
implementations over `List Char`, so that every parse of a concrete
link evaluates inside the kernel. -/

/-- The characters Python's default `str.strip()` removes. -/
def isPySpace (c : Char) : Bool :=
  c = ' ' ∨ c = '\t' ∨ c = '\n' ∨ c = '\r' ∨ c = '\x0b' ∨ c = '\x0c'

/-- Python `s.strip()` on the character list. -/
def trimChars (l : List Char) : List Char :=
  ((l.dropWhile isPySpace).reverse.dropWhile isPySpace).reverse

/-- Python `s.strip("/")` on the character list. -/
def stripSlashChars (l : List Char) : List Char :=
  ((l.dropWhile (fun ch => ch = '/')).reverse.dropWhile (fun ch => ch = '/')).reverse

/-- Python `s.replace(old, new)` (all non-overlapping occurrences, left
to right), fuelled by the input length so the recursion is structural;
`old` is non-empty for every pattern the scripts use. -/
def replaceAllAux (pat rep : List Char) : Nat → List Char → List Char
  | 0, l => l
  | _ + 1, [] => []
  | fuel + 1, ch :: rest =>
    if pat.isPrefixOf (ch :: rest) then
      rep ++ replaceAllAux pat rep fuel (List.drop (pat.length - 1) rest)
    else ch :: replaceAllAux pat rep fuel rest

/-- Python `s.replace(old, new)`. -/
def replaceAll (pat rep l : List Char) : List Char :=
  replaceAllAux pat rep l.length l

/-- Python `s.split(sep)` for a one-character separator: `acc` holds the
current field reversed. -/
def splitOnCharAux (sep : Char) : List Char → List Char → List (List Char)
  | [], acc => [acc.reverse]
  | ch :: rest, acc =>
    if ch = sep then acc.reverse :: splitOnCharAux sep rest []
    else splitOnCharAux sep rest (ch :: acc)

/-- Python `s.split("/")`. -/
def splitOnSlash (l : List Char) : List (List Char) :=
  splitOnCharAux '/' l []

/-- Value of a non-empty list of decimal digit characters. -/
def digitsVal (l : List Char) : Nat :=
  l.foldl (fun a c => a * 10 + (c.toNat - 48)) 0

/-- Python `int(s)` on a decimal string: `some` value, or `none` when
Python raises `ValueError`.  Surrounding whitespace is stripped, an
optional single sign precedes a non-empty run of decimal digits.
(Python additionally allows underscore digit grouping, which no claim
exercises.) -/
def pythonInt (s : String) : Option Int :=
  match trimChars s.data with
  | [] => none
  | first :: rest =>
    if first = '-' then
      if rest ≠ [] ∧ rest.all Char.isDigit then some (-(digitsVal rest : Int))
      else none
    else if first = '+' then
      if rest ≠ [] ∧ rest.all Char.isDigit then some ((digitsVal rest : Int))
      else none
    else if (first :: rest).all Char.isDigit then
      some ((digitsVal (first :: rest) : Int))
    else none

/-- Decimal digits of `n`, most significant first (fuelled structural
division loop). -/
def natToCharsAux : Nat → Nat → List Char
  | 0, _ => []
  | fuel + 1, n =>
    if n < 10 then [Char.ofNat (48 + n)]
    else natToCharsAux fuel (n / 10) ++ [Char.ofNat (48 + n % 10)]

/-- Python `str(n)` for a natural number. -/
def natToString (n : Nat) : String :=
  String.mk (natToCharsAux (n + 1) n)

/-- Python `str(i)` / f-string formatting of an `int`. -/
def intToString (i : Int) : String :=
  if i < 0 then String.mk ('-' :: (natToString i.natAbs).data)
  else natToString i.natAbs

/-- Link cleaning of `process_videos.py`s `parse_telegram_link` (line
103): strip whitespace, delete every occurrence of the three URL noise
substrings. -/
def pv_cleanLink (link : String) : String :=
  String.mk (replaceAll "t.me/".data [] (replaceAll "http://".data []
    (replaceAll "https://".data [] (trimChars link.data))))

/-- The split parts (line 104). -/
def pv_linkParts (link : String) : List String :=
  (splitOnSlash (pv_cleanLink link).data).map String.mk

/-- What `process_videos.py` resolves: either a private channel id to be
looked up via `get_entity`, or a public username. -/
inductive PvEntityRef where
  | channel (id : Int)
  | username (name : String)
deriving DecidableEq, Repr

/-- The pure part of `process_videos.py`s `parse_telegram_link` (lines
98-145): the message id is `int(parts[-1])`, a leading `c` selects the
private-channel branch with `int(f"-100{parts[1]}")`.  The subsequent
entity lookup is an external call (its failure is part of
`ItemEnv.parseOk`); `Except.error` models a `ValueError` propagating to
`main`s item-level `except`. -/
def pv_parse_telegram_link (link : String) : Except String (PvEntityRef × Int) :=
  let parts := pv_linkParts link
  if parts.length < 2 then Except.error "Invalid link format"
  else
    match pythonInt ((parts.getLast?).getD "") with
    | none => Except.error "ValueError"
    | some msgId =>
      if (parts.head?).getD "" = "c" then
        match pythonInt ("-100" ++ (parts[1]?.getD "")) with
        | none => Except.error "ValueError"
        | some channelId => Except.ok (PvEntityRef.channel channelId, msgId)
      else Except.ok (PvEntityRef.username ((parts.head?).getD ""), msgId)

/-- `[p for p in link.strip("/").split("/") if p]` (line 41). -/
def us_linkParts (link : String) : List String :=
  (((splitOnSlash (stripSlashChars link.data)).map String.mk).filter
    (fun p => p ≠ ""))

/-- `uploader_script.py`s `parse_telegram_link` (lines 33-68): find the
`c` component, take `int(parts[-1])` as message id, then — after the
completeness check — `base = int(parts[c_index+1])` and the channel id
`int(f"-100{base}")` (note: the base is converted to `int` before being
formatted back, unlike `process_videos.py`).  Every failure is caught by
the function's own `except` and turns into `sys.exit(1)`, modelled as
`Except.error`. -/
def us_parse_telegram_link (link : String) : Except String (Int × Int) :=
  let parts := us_linkParts link
  match parts.findIdx? (fun p => p = "c") with
  | none => Except.error "Link must contain a c component"
  | some cIdx =>
    match pythonInt ((parts.getLast?).getD "") with
    | none => Except.error "ValueError"
    | some messageId =>
      if parts.length ≤ cIdx + 1 then Except.error "Link format is incomplete"
      else
        match pythonInt (parts[cIdx + 1]?.getD "") with
        | none => Except.error "ValueError"
        | some base =>
          match pythonInt ("-100" ++ intToString base) with
          | none => Except.error "ValueError"
          | some channelId => Except.ok (channelId, messageId)

/-! ## Spec-modelled components

The Segment Planner (§4.1) and the Progress Aggregator (§4.3/§3
`ProgressState`) appear in the spec's data model but have no code under
`src/` (the scripts delegate ranged download and progress accounting to
their client libraries), so they are modelled from the spec's words. -/

/-- A half-open byte range `[offset, offset+length)` of a Transfer
(spec §3). -/
structure Segment where
  index : Nat
  offset : Nat
  length : Nat
deriving DecidableEq, Repr

/-- Modelled from the spec: the Segment Planner (§4.1) is not present in
`src/`.  "given `totalSize > 0` and a fixed `segmentSize > 0`, produces
`ceil(totalSize/segmentSize)` segments covering `[0,totalSize)` with no
gap or overlap; the final segment's length is `totalSize mod
segmentSize` (or a full segment if that would be zero).  Fails with
`InvalidSizeError` if `totalSize <= 0`."  Segment `i` starts at
`i * segmentSize` and is a full segment truncated at `totalSize`. -/
def planList (T S : Nat) : List Segment :=
  (List.range ((T + S - 1) / S)).map fun i => ⟨i, i * S, min S (T - i * S)⟩

/-- Modelled from the spec (§4.1, continued): the planner's entry point,
validating the declared size. -/
def planSegments (totalSize segmentSize : Int) : Except String (List Segment) :=
  if totalSize ≤ 0 then Except.error "InvalidSizeError"
  else Except.ok (planList totalSize.toNat segmentSize.toNat)

/-- Modelled from the spec: the Progress Aggregator (§3 `ProgressState`,
§4.3) is not present in `src/` (`progress_callback` at
`process_videos.py` lines 75-76 only prints values supplied by the
library).  `bytesDone` is "monotonic, clamped to `totalSize`", "mutated
under a single exclusive critical section per update". -/
structure ProgressState where
  totalSize : Nat
  bytesDone : Nat
deriving DecidableEq, Repr

/-- Modelled from the spec: one serialized `update(deltaBytes)` call
(§4.3), adding the delivered bytes and clamping at `totalSize`. -/
def ProgressState.update (s : ProgressState) (delta : Nat) : ProgressState :=
  ⟨s.totalSize, min (s.bytesDone + delta) s.totalSize⟩

/-- A finite sequence of serialized updates; because every update runs
in its own exclusive critical section (§4.3), any interleaving of
concurrent workers' updates is some such sequence. -/
def ProgressState.applyUpdates (s : ProgressState) (ds : List Nat) : ProgressState :=
  ds.foldl ProgressState.update s

/-! ## Concrete environments used by witnesses and counterexamples -/

/-- Item whose download succeeds and whose upload loop raises. -/
def pvEnvUploadRaises : ItemEnv :=
  ⟨true, true, false, some "downloads/video.mp4", .raises .other, true⟩

/-- Item whose upload raises the quota error the spec classifies fatal. -/
def pvEnvQuota : ItemEnv :=
  ⟨true, true, false, some "downloads/a.mp4", .raises .quotaError, true⟩

/-- Fully successful item. -/
def pvEnvGood : ItemEnv :=
  ⟨true, true, false, some "downloads/b.mp4", .completes (some "vid2"), true⟩

/-- Item whose download raises. -/
def pvEnvNoDownload : ItemEnv :=
  ⟨true, true, false, none, .completes (some "x"), true⟩

/-- Item whose upload succeeds and whose playlist insert fails. -/
def pvEnvPlaylistFails : ItemEnv :=
  ⟨true, true, false, some "downloads/c.mp4", .completes (some "vid3"), false⟩

/-- Fully successful uploader_script run. -/
def usEnvGood : UsEnv :=
  ⟨true, true, true, true, true, false, false, Except.ok (some "usvid")⟩

/-- uploader_script run whose download raises. -/
def usEnvNoDownload : UsEnv :=
  ⟨true, true, true, true, true, true, false, Except.ok none⟩

/-- Upload service raising on every chunk call. -/
def uploadEnvAllErr : UploadEnv :=
  ⟨3, fun _ => some .other, true, "v"⟩

/-- Upload service failing on the first call only. -/
def uploadEnvOneErr : UploadEnv :=
  ⟨3, fun call => if call = 0 then some .other else none, true, "v"⟩

/-- One-chunk upload that succeeds immediately. -/
def uploadEnvOk : UploadEnv :=
  ⟨1, fun _ => none, true, "v"⟩

/-! # Theorems -/

/-! ## Orchestrator claims (C1, C2, C3, C8) -/

/-- The batch loop processes each item independently: the item-level
`except Exception` confines every failure to its own iteration. -/
theorem pv_main_eq_map (envs : List ItemEnv) :
    pv_main envs = envs.map pv_processItem := by
  induction envs with
  | nil => rfl
  | cons e rest ih => simp [pv_main, ih]

/-- C1, counterexample: the claim says the local artifact is deleted on
every exit path of every item.  In `process_videos.py` the cleanup
(lines 247-250) is the last statement of the per-item `try` block, so an
exception raised by the upload loop jumps to the `except` (line 252)
without removing the downloaded file: on this item the file is created
and never deleted. -/
theorem C1_counterexample :
    (pv_processItem pvEnvUploadRaises).fileCreated = true ∧
    (pv_processItem pvEnvUploadRaises).fileDeleted = false := by
  decide

/-- C1, amended: in `uploader_script.py` the cleanup sits in a `finally`
and runs on every exit path, so a created file is always deleted; in
`process_videos.py` the file is deleted only on the exit path that
completes the upload loop normally (the item succeeds) — an exception
between download and cleanup leaves the file on disk. -/
theorem C1_amended_cleanup (env : UsEnv) (env2 : ItemEnv) (vid : Option String)
    (hcreated : (download_video_and_upload env).fileCreated = true)
    (hsuccess : (pv_processItem env2).result = ItemResult.success vid) :
    (download_video_and_upload env).fileDeleted = true ∧
    (pv_processItem env2).fileDeleted = true := by
  constructor
  · rcases env with ⟨s, p, co, m, hm, d, a, u⟩
    cases s <;> cases p <;> cases co <;> cases m <;> cases hm <;> cases d <;>
      cases a <;> rcases u with k | r <;>
      simp_all [download_video_and_upload]
  · rcases env2 with ⟨p, hm, a, d, u, pl⟩
    cases p <;> cases hm <;> cases a <;> rcases d with _ | path <;>
      rcases u with k | v <;>
      simp_all [pv_processItem]

/-- C1 witness: a fully successful run of each script deletes its file. -/
theorem C1_amended_cleanup_witness :
    (download_video_and_upload usEnvGood).fileDeleted = true ∧
    (pv_processItem pvEnvGood).fileDeleted = true :=
  C1_amended_cleanup usEnvGood pvEnvGood (some "vid2") (by decide) (by decide)

/-- C2: a failed download never reaches the uploader.  In
`process_videos.py` a raising `download_media` jumps to the item-level
`except` before the upload request is built; in `uploader_script.py` a
raising `download_media` jumps to the `except`/`finally` before
`upload_video` is called. -/
theorem C2_failed_download_not_uploaded :
    (∀ env : ItemEnv, env.downloadResult = none →
      (pv_processItem env).uploaderInvoked = false) ∧
    (∀ env : UsEnv, env.downloadRaises = true →
      (download_video_and_upload env).uploaderInvoked = false) := by
  constructor
  · intro env h
    unfold pv_processItem
    rw [h]
    split_ifs <;> rfl
  · intro env h
    unfold download_video_and_upload
    rw [h]
    split_ifs <;> first | rfl | simp_all

/-- C3, counterexample: the claim says a fatal (quota/auth) error on
item `k` halts the batch before item `k+1`.  The item-level
`except Exception` of `process_videos.py` (line 252) catches quota and
auth errors like any other `Exception` and the loop advances: after a
quota failure on item 1, item 2 is still fully processed (its uploader
runs and it succeeds). -/
theorem C3_counterexample :
    (pv_processItem pvEnvQuota).result = ItemResult.failed PyError.quotaError ∧
    pv_main [pvEnvQuota, pvEnvGood] =
      [⟨ItemResult.failed PyError.quotaError, true, true, false, false⟩,
       ⟨ItemResult.success (some "vid2"), true, true, true, true⟩] ∧
    (pv_processItem pvEnvGood).uploaderInvoked = true := by
  decide

/-- C3, amended: no per-item failure — fatal quota/auth errors included,
since every `Exception` is caught at line 252 — ever halts the batch:
whatever happens to an item, every following item is still processed
(only an exit outside the `Exception` hierarchy would stop the loop). -/
theorem C3_amended_batch_never_halts (pre post : List ItemEnv) (env : ItemEnv) :
    pv_main (pre ++ env :: post) =
      pre.map pv_processItem ++
        pv_processItem env :: post.map pv_processItem := by
  simp [pv_main_eq_map]

/-- C8: once the upload loop has completed with a video id, the playlist
registration (lines 229-245) runs inside its own `try`/`except`, so its
failure cannot revert the item: the item still terminates as a success
(and its cleanup still runs), only the playlist registration is lost. -/
theorem C8_playlist_failure_keeps_success (env : ItemEnv) (p vid : String)
    (h1 : env.parseOk = true) (h2 : env.hasMedia = true)
    (h3 : env.analyzeRaises = false) (h4 : env.downloadResult = some p)
    (h5 : env.uploadOutcome = PvUpload.completes (some vid))
    (h6 : env.playlistOk = false) :
    (pv_processItem env).result = ItemResult.success (some vid) ∧
    (pv_processItem env).fileDeleted = true ∧
    (pv_processItem env).addedToPlaylist = false := by
  simp [pv_processItem, h1, h2, h3, h4, h5, h6]

/-- C8 witness at a concrete item whose playlist insert fails. -/
theorem C8_playlist_failure_keeps_success_witness :
    (pv_processItem pvEnvPlaylistFails).result = ItemResult.success (some "vid3") ∧
    (pv_processItem pvEnvPlaylistFails).fileDeleted = true ∧
    (pv_processItem pvEnvPlaylistFails).addedToPlaylist = false :=
  C8_playlist_failure_keeps_success pvEnvPlaylistFails "downloads/c.mp4" "vid3"
    rfl rfl rfl rfl rfl rfl

/-! ## Upload-loop claims (C5, C7, C9) -/

/-- Every run of the retrying upload loop submits the current chunk
first, and successive submissions either repeat the current chunk (a
retry) or advance by exactly one chunk (an acknowledged chunk is never
resubmitted, no chunk is skipped). -/
theorem uploadChunkLoop_shape (env : UploadEnv) :
    ∀ call c retry, ∃ t, (uploadChunkLoop env call c retry).submitted = c :: t ∧
      List.Chain' (fun a b => b = a ∨ b = a + 1) (c :: t) := by
  intro call c retry
  induction call, c, retry using uploadChunkLoop.induct env with
  | case1 call c retry k herr hbig =>
    refine ⟨[], ?_, ?_⟩
    · rw [uploadChunkLoop]
      simp [herr, hbig]
    · simp
  | case2 call c retry k herr hbig ih =>
    obtain ⟨t, ht, hc⟩ := ih
    refine ⟨c :: t, ?_, ?_⟩
    · rw [uploadChunkLoop]
      simp [herr, hbig, ht]
    · exact List.Chain'.cons (Or.inl rfl) hc
  | case3 call c retry herr hlt ih =>
    obtain ⟨t, ht, hc⟩ := ih
    refine ⟨(c + 1) :: t, ?_, ?_⟩
    · rw [uploadChunkLoop]
      simp [herr, hlt, ht]
    · exact List.Chain'.cons (Or.inr rfl) hc
  | case4 call c retry herr hge hid =>
    refine ⟨[], ?_, ?_⟩
    · rw [uploadChunkLoop]
      simp [herr, hge, hid]
    · simp
  | case5 call c retry herr hge hid hbig =>
    refine ⟨[], ?_, ?_⟩
    · rw [uploadChunkLoop]
      simp [herr, hge, hid, hbig]
    · simp
  | case6 call c retry herr hge hid hbig =>
    refine ⟨[], ?_, ?_⟩
    · rw [uploadChunkLoop]
      simp [herr, hge, hid, hbig]
    · simp

/-- The loop returns a video id only when the final response carried an
`id` key, and then it is that id. -/
theorem uploadChunkLoop_result_some (env : UploadEnv) :
    ∀ call c retry i, (uploadChunkLoop env call c retry).result = some i →
      i = env.videoId ∧ env.finalHasId = true := by
  intro call c retry
  induction call, c, retry using uploadChunkLoop.induct env with
  | case1 call c retry k herr hbig =>
    intro i hi
    rw [uploadChunkLoop] at hi
    simp [herr, hbig] at hi
  | case2 call c retry k herr hbig ih =>
    intro i hi
    rw [uploadChunkLoop] at hi
    simp [herr, hbig] at hi
    exact ih i hi
  | case3 call c retry herr hlt ih =>
    intro i hi
    rw [uploadChunkLoop] at hi
    simp [herr, hlt] at hi
    exact ih i hi
  | case4 call c retry herr hge hid =>
    intro i hi
    rw [uploadChunkLoop] at hi
    simp [herr, hge, hid] at hi
    exact ⟨hi.symm, hid⟩
  | case5 call c retry herr hge hid hbig =>
    intro i hi
    rw [uploadChunkLoop] at hi
    simp [herr, hge, hid, hbig] at hi
  | case6 call c retry herr hge hid hbig =>
    intro i hi
    rw [uploadChunkLoop] at hi
    simp [herr, hge, hid, hbig] at hi

/-- The inline loop of `process_videos.py` submits chunks in strictly
ascending order, advancing by exactly one chunk per call. -/
theorem pvUploadChunkLoop_shape (env : PvUploadEnv) :
    ∀ c, ∃ t, (pvUploadChunkLoop env c).2 = c :: t ∧
      List.Chain' (fun a b => b = a + 1) (c :: t) := by
  intro c
  induction c using pvUploadChunkLoop.induct env with
  | case1 c herr =>
    refine ⟨[], ?_, ?_⟩
    · rw [pvUploadChunkLoop]
      simp [herr]
    · simp
  | case2 c herr hlt ih =>
    obtain ⟨t, ht, hc⟩ := ih
    refine ⟨(c + 1) :: t, ?_, ?_⟩
    · rw [pvUploadChunkLoop]
      simp [herr, hlt, ht]
    · exact List.Chain'.cons rfl hc
  | case3 c herr hge =>
    refine ⟨[], ?_, ?_⟩
    · rw [pvUploadChunkLoop]
      simp [herr, hge]
    · simp

/-- C5: a chunk call that raises while the retry budget allows is
retried after a recorded `2 ** retry` sleep, and the retried call
resubmits the same chunk (the session is not re-initiated and earlier
chunks are not resent); and the budget is hard: against a service that
fails every call, the loop performs exactly `maxRetries + 1` chunk
calls — all for the same chunk — sleeps `2, 4, 8, 16, 32` seconds
between them, and then gives up with a failure instead of retrying
forever. -/
theorem C5_bounded_retry_of_current_chunk :
    (∀ (env : UploadEnv) (call c retry : Nat) (k : PyError),
      env.err call = some k → retry + 1 ≤ maxRetries →
      (uploadChunkLoop env call c retry).submitted.head? = some c ∧
      (uploadChunkLoop env call c retry).submitted.tail.head? = some c ∧
      (uploadChunkLoop env call c retry).sleeps.head? = some (2 ^ (retry + 1))) ∧
    (∀ (env : UploadEnv) (c : Nat), (∀ m, env.err m = some PyError.other) →
      uploadChunkLoop env 0 c 0 =
        ⟨none, List.replicate (maxRetries + 1) c, [2, 4, 8, 16, 32]⟩) := by
  constructor
  · intro env call c retry k herr hbudget
    have hbig : ¬retry + 1 > maxRetries := by omega
    obtain ⟨t, ht, _⟩ := uploadChunkLoop_shape env (call + 1) c (retry + 1)
    rw [uploadChunkLoop]
    simp [herr, hbig, ht]
  · intro env c h
    have s5 : uploadChunkLoop env 5 c 5 = ⟨none, [c], []⟩ := by
      rw [uploadChunkLoop]
      simp [h 5, maxRetries]
    have s4 : uploadChunkLoop env 4 c 4 = ⟨none, [c, c], [32]⟩ := by
      rw [uploadChunkLoop]
      simp [h 4, maxRetries, s5]
    have s3 : uploadChunkLoop env 3 c 3 = ⟨none, [c, c, c], [16, 32]⟩ := by
      rw [uploadChunkLoop]
      simp [h 3, maxRetries, s4]
    have s2 : uploadChunkLoop env 2 c 2 = ⟨none, [c, c, c, c], [8, 16, 32]⟩ := by
      rw [uploadChunkLoop]
      simp [h 2, maxRetries, s3]
    have s1 : uploadChunkLoop env 1 c 1 =
        ⟨none, [c, c, c, c, c], [4, 8, 16, 32]⟩ := by
      rw [uploadChunkLoop]
      simp [h 1, maxRetries, s2]
    have s0 : uploadChunkLoop env 0 c 0 =
        ⟨none, [c, c, c, c, c, c], [2, 4, 8, 16, 32]⟩ := by
      rw [uploadChunkLoop]
      simp [h 0, maxRetries, s1]
    rw [s0]
    simp [maxRetries, List.replicate]

/-- C7: upload chunks form one sequential stream: each `next_chunk` call
either retries the chunk of the previous call or advances to the next
one, so submitted offsets never decrease, no chunk is skipped and no
chunk is resubmitted after a later one — and in `process_videos.py`s
inline loop (which has no retry) the submitted chunks are strictly
ascending.  Both loops are single sequential recursions: at most one
chunk call is in flight at a time by construction. -/
theorem C7_chunks_single_ascending_stream :
    (∀ (env : UploadEnv) (call c retry : Nat),
      List.Chain' (fun a b => b = a ∨ b = a + 1)
        (uploadChunkLoop env call c retry).submitted) ∧
    (∀ (env : PvUploadEnv) (c : Nat),
      List.Chain' (fun a b => b = a + 1) (pvUploadChunkLoop env c).2) := by
  constructor
  · intro env call c retry
    obtain ⟨t, ht, hc⟩ := uploadChunkLoop_shape env call c retry
    rw [ht]
    exact hc
  · intro env c
    obtain ⟨t, ht, hc⟩ := pvUploadChunkLoop_shape env c
    rw [ht]
    exact hc

/-- C9, counterexample: the claim says `upload_video` never propagates
an exception.  Its setup (lines 112-119) sits outside the `try`:
`MediaFileUpload(filepath, ...)` opens the local file, and its failure
(for instance a missing file) propagates to the caller instead of
returning an id or `None`. -/
theorem C9_counterexample :
    upload_video (some PyError.fileError) uploadEnvOk =
      Except.error PyError.fileError ∧
    ∀ o : Option String,
      upload_video (some PyError.fileError) uploadEnvOk ≠ Except.ok o := by
  constructor
  · rfl
  · intro o h
    exact Except.noConfusion h

/-- C9, amended: once the setup succeeds, `upload_video` catches every
exception of its chunk loop and always returns — `some id` (only when
the final response carried an `id` key, and then the returned id is that
key's value) or `None` when the retry budget is exhausted or the final
response lacked an id. -/
theorem C9_amended_no_exception_after_setup (env : UploadEnv) :
    ∃ o : Option String, upload_video none env = Except.ok o ∧
      ∀ i, o = some i → i = env.videoId ∧ env.finalHasId = true := by
  refine ⟨(uploadChunkLoop env 0 0 0).result, rfl, ?_⟩
  intro i hi
  exact uploadChunkLoop_result_some env 0 0 0 i hi

/-! ## Progress aggregator claim (C6) -/

/-- An update never changes `totalSize`. -/
theorem ProgressState.update_totalSize (s : ProgressState) (d : Nat) :
    (s.update d).totalSize = s.totalSize := rfl

/-- No sequence of updates changes `totalSize`. -/
theorem ProgressState.applyUpdates_totalSize (ds : List Nat) :
    ∀ s : ProgressState, (s.applyUpdates ds).totalSize = s.totalSize := by
  induction ds with
  | nil => intro s; rfl
  | cons d ds ih =>
    intro s
    simpa [ProgressState.applyUpdates] using ih (s.update d)

/-- One update keeps the clamping invariant. -/
theorem ProgressState.update_le (s : ProgressState) (d : Nat) :
    (s.update d).bytesDone ≤ (s.update d).totalSize :=
  min_le_right _ _

/-- Any sequence of updates keeps the clamping invariant. -/
theorem ProgressState.applyUpdates_le (ds : List Nat) :
    ∀ s : ProgressState, s.bytesDone ≤ s.totalSize →
      (s.applyUpdates ds).bytesDone ≤ (s.applyUpdates ds).totalSize := by
  induction ds with
  | nil => intro s h; exact h
  | cons d ds ih =>
    intro s _
    simpa [ProgressState.applyUpdates] using ih (s.update d) (s.update_le d)

/-- Under the clamping invariant, an update never decreases the counter. -/
theorem ProgressState.le_update (s : ProgressState) (d : Nat)
    (h : s.bytesDone ≤ s.totalSize) : s.bytesDone ≤ (s.update d).bytesDone :=
  le_min (Nat.le_add_right _ _) h

/-- Under the clamping invariant, no sequence of updates decreases the
counter. -/
theorem ProgressState.le_applyUpdates (ds : List Nat) :
    ∀ s : ProgressState, s.bytesDone ≤ s.totalSize →
      s.bytesDone ≤ (s.applyUpdates ds).bytesDone := by
  induction ds with
  | nil => intro s _; exact le_rfl
  | cons d ds ih =>
    intro s h
    calc s.bytesDone ≤ (s.update d).bytesDone := s.le_update d h
      _ ≤ ((s.update d).applyUpdates ds).bytesDone :=
        ih (s.update d) (s.update_le d)
      _ = (s.applyUpdates (d :: ds)).bytesDone := rfl

/-- C6: starting from any state satisfying the clamping invariant (the
initial state has `bytesDone = 0`), every sequence of serialized
`update` calls — and any interleaving of concurrent workers' updates is
such a sequence, because each update runs under the aggregator's
exclusive critical section — keeps `bytesDone` at or below `totalSize`,
and the counter read after any prefix of the sequence is never larger
than the counter read after the whole sequence: progress is
monotonically non-decreasing. -/
theorem C6_progress_monotone_bounded (s : ProgressState) (ds : List Nat)
    (hinv : s.bytesDone ≤ s.totalSize) :
    (s.applyUpdates ds).totalSize = s.totalSize ∧
    (s.applyUpdates ds).bytesDone ≤ s.totalSize ∧
    ∀ ds1 ds2, ds = ds1 ++ ds2 →
      (s.applyUpdates ds1).bytesDone ≤ (s.applyUpdates ds).bytesDone := by
  refine ⟨ProgressState.applyUpdates_totalSize ds s, ?_, ?_⟩
  · have h := ProgressState.applyUpdates_le ds s hinv
    rwa [ProgressState.applyUpdates_totalSize ds s] at h
  · intro ds1 ds2 hsplit
    subst hsplit
    have hfold : s.applyUpdates (ds1 ++ ds2) =
        (s.applyUpdates ds1).applyUpdates ds2 :=
      List.foldl_append _ _ _ _
    rw [hfold]
    refine ProgressState.le_applyUpdates ds2 (s.applyUpdates ds1) ?_
    exact ProgressState.applyUpdates_le ds1 s hinv

/-- C6 witness: a concrete burst of updates on a 100-byte transfer
(total delivered 120 bytes, counter clamps at 100). -/
theorem C6_progress_monotone_bounded_witness :
    ((⟨100, 0⟩ : ProgressState).applyUpdates [30, 50, 40]).totalSize = 100 ∧
    ((⟨100, 0⟩ : ProgressState).applyUpdates [30, 50, 40]).bytesDone ≤ 100 ∧
    ∀ ds1 ds2, [30, 50, 40] = ds1 ++ ds2 →
      ((⟨100, 0⟩ : ProgressState).applyUpdates ds1).bytesDone ≤
        ((⟨100, 0⟩ : ProgressState).applyUpdates [30, 50, 40]).bytesDone :=
  C6_progress_monotone_bounded ⟨100, 0⟩ [30, 50, 40] (by decide)

/-! ## Segment planner claim (C4) -/

/-- Arithmetic of the planned segment count `n = (T + S - 1) / S` (the
ceiling of `T / S`): it is positive, `n` full segments reach `T`, and
`n - 1` full segments do not. -/
theorem plan_ceil_facts (T S : Nat) (hT : 0 < T) (hS : 0 < S) :
    0 < (T + S - 1) / S ∧ T ≤ ((T + S - 1) / S) * S ∧
      (((T + S - 1) / S) - 1) * S < T := by
  have hdm := Nat.div_add_mod (T + S - 1) S
  have hmod : (T + S - 1) % S < S := Nat.mod_lt _ hS
  set q := (T + S - 1) / S with hq
  have hq1 : 0 < q := by
    rcases Nat.eq_zero_or_pos q with h0 | h1
    · rw [h0] at hdm
      simp at hdm
      omega
    · exact h1
  have hcomm : S * q = q * S := Nat.mul_comm S q
  have hsub : (q - 1) * S = q * S - S := by
    rw [Nat.sub_mul, Nat.one_mul]
  refine ⟨hq1, by omega, by omega⟩

/-- The planner produces exactly the ceiling number of segments. -/
theorem planList_length (T S : Nat) :
    (planList T S).length = (T + S - 1) / S := by
  simp [planList]

/-- The planned segment lengths sum exactly to `T`: no gap and no
excess. -/
theorem planList_sum (T S : Nat) (hT : 0 < T) (hS : 0 < S) :
    ((planList T S).map Segment.length).sum = T := by
  obtain ⟨hq1, hub, hlb⟩ := plan_ceil_facts T S hT hS
  obtain ⟨m, hm⟩ : ∃ m, (T + S - 1) / S = m + 1 := ⟨(T + S - 1) / S - 1, by omega⟩
  rw [hm] at hub hlb
  unfold planList
  rw [hm, List.range_succ, List.map_append, List.map_append, List.sum_append]
  simp only [List.map_map, List.map_cons, List.map_nil, List.sum_cons,
    List.sum_nil, Function.comp]
  have hcomp : (Segment.length ∘ fun i =>
      ({ index := i, offset := i * S, length := min S (T - i * S) } : Segment)) =
      fun i => min S (T - i * S) := rfl
  rw [hcomp]
  have hfull : ∀ i ∈ List.range m,
      (fun i => min S (T - i * S)) i = (fun _ => S) i := by
    intro i hi
    have hi' : i < m := List.mem_range.mp hi
    have h1 : (i + 1) * S ≤ m * S := Nat.mul_le_mul_right S (by omega)
    have h2 : (i + 1) * S = i * S + S := Nat.succ_mul i S
    have h3 : (m + 1 - 1) * S = m * S := by norm_num
    show min S (T - i * S) = S
    omega
  rw [List.map_congr_left hfull]
  have hconst : ((List.range m).map (fun _ => S)).sum = m * S := by
    rw [List.map_const', List.sum_replicate, List.length_range, smul_eq_mul]
  rw [hconst]
  have h3 : (m + 1 - 1) * S = m * S := by norm_num
  have h4 : (m + 1) * S = m * S + S := Nat.succ_mul m S
  omega

/-- Planned segments never overlap: each one ends at or before the next
begins. -/
theorem planList_pairwise (T S : Nat) :
    (planList T S).Pairwise (fun a b => a.offset + a.length ≤ b.offset) := by
  unfold planList
  rw [List.pairwise_map]
  refine List.Pairwise.imp ?_ (List.pairwise_lt_range _)
  intro i j hij
  show i * S + min S (T - i * S) ≤ j * S
  have h1 : (i + 1) * S ≤ j * S := Nat.mul_le_mul_right S (by omega)
  have h2 : (i + 1) * S = i * S + S := Nat.succ_mul i S
  omega

/-- Every planned segment lies inside `[0, T)`. -/
theorem planList_within (T S : Nat) (hT : 0 < T) (hS : 0 < S) :
    ∀ sg ∈ planList T S, sg.offset + sg.length ≤ T := by
  intro sg hsg
  obtain ⟨hq1, hub, hlb⟩ := plan_ceil_facts T S hT hS
  unfold planList at hsg
  obtain ⟨i, hi, rfl⟩ := List.mem_map.mp hsg
  have hi' : i < (T + S - 1) / S := List.mem_range.mp hi
  have h1 : i * S ≤ ((T + S - 1) / S - 1) * S := Nat.mul_le_mul_right S (by omega)
  show i * S + min S (T - i * S) ≤ T
  omega

/-- Every byte position below `T` is covered by some planned segment. -/
theorem planList_cover (T S : Nat) (hT : 0 < T) (hS : 0 < S) :
    ∀ x < T, ∃ sg ∈ planList T S, sg.offset ≤ x ∧ x < sg.offset + sg.length := by
  intro x hx
  obtain ⟨hq1, hub, hlb⟩ := plan_ceil_facts T S hT hS
  have hdm := Nat.div_add_mod x S
  have hmod : x % S < S := Nat.mod_lt _ hS
  have hin : x / S < (T + S - 1) / S :=
    (Nat.div_lt_iff_lt_mul hS).mpr (lt_of_lt_of_le hx hub)
  refine ⟨⟨x / S, (x / S) * S, min S (T - (x / S) * S)⟩, ?_, ?_, ?_⟩
  · unfold planList
    exact List.mem_map.mpr ⟨x / S, List.mem_range.mpr hin, rfl⟩
  · exact Nat.div_mul_le_self x S
  · show x < (x / S) * S + min S (T - (x / S) * S)
    have h1 : (x / S) * S ≤ x := Nat.div_mul_le_self x S
    have h3 : S * (x / S) = (x / S) * S := Nat.mul_comm _ _
    omega

/-- The last planned segment carries the remainder `T mod S` (a full
segment when the remainder is zero). -/
theorem planList_last (T S : Nat) (hT : 0 < T) (hS : 0 < S) :
    (planList T S).getLast? =
      some ⟨(T + S - 1) / S - 1, ((T + S - 1) / S - 1) * S,
        if T % S = 0 then S else T % S⟩ := by
  obtain ⟨hq1, hub, hlb⟩ := plan_ceil_facts T S hT hS
  obtain ⟨m, hm⟩ : ∃ m, (T + S - 1) / S = m + 1 := ⟨(T + S - 1) / S - 1, by omega⟩
  rw [hm] at hub hlb
  have hnm : (m + 1) * S = m * S + S := Nat.succ_mul m S
  have hmm : (m + 1 - 1) * S = m * S := by norm_num
  have hmlb : m * S < T := by omega
  unfold planList
  rw [hm, List.range_succ, List.map_append]
  simp only [List.map_cons, List.map_nil, Nat.add_sub_cancel]
  rw [List.getLast?_concat]
  have hmodeq : T % S = (T - m * S) % S := by
    have hcomm : S * m = m * S := Nat.mul_comm S m
    conv_lhs => rw [show T = (T - m * S) + S * m by omega]
    rw [Nat.add_mul_mod_self_left]
  rcases Nat.lt_or_ge (T - m * S) S with hlt | hge
  · have hmod2 : (T - m * S) % S = T - m * S := Nat.mod_eq_of_lt hlt
    rw [hmodeq, hmod2, if_neg (by omega)]
    rw [min_eq_right (le_of_lt hlt)]
  · have heq : T - m * S = S := by omega
    rw [hmodeq, heq, Nat.mod_self, if_pos rfl, min_self]

/-- C4: the spec-modelled Segment Planner meets its contract: for
`totalSize > 0` and fixed `segmentSize > 0` it produces exactly
`ceil(totalSize/segmentSize)` segments (characterized both by the
`(T + S - 1) / S` formula and by the two ceiling inequalities) whose
lengths sum to `totalSize`, that are mutually non-overlapping, all lie
inside `[0, totalSize)`, and jointly cover every byte of
`[0, totalSize)`; the final segment's length is `totalSize mod
segmentSize`, or a full segment when that remainder is zero; and for
`totalSize <= 0` it fails with `InvalidSizeError`. -/
theorem C4_segment_planner_contract (totalSize segmentSize : Int)
    (hS : 0 < segmentSize) :
    (0 < totalSize →
      ∃ segs, planSegments totalSize segmentSize = Except.ok segs ∧
        segs.length =
          (totalSize.toNat + segmentSize.toNat - 1) / segmentSize.toNat ∧
        totalSize.toNat ≤ segs.length * segmentSize.toNat ∧
        (segs.length - 1) * segmentSize.toNat < totalSize.toNat ∧
        (segs.map Segment.length).sum = totalSize.toNat ∧
        segs.Pairwise (fun a b => a.offset + a.length ≤ b.offset) ∧
        (∀ sg ∈ segs, sg.offset + sg.length ≤ totalSize.toNat) ∧
        (∀ x < totalSize.toNat,
          ∃ sg ∈ segs, sg.offset ≤ x ∧ x < sg.offset + sg.length) ∧
        segs.getLast? =
          some ⟨segs.length - 1, (segs.length - 1) * segmentSize.toNat,
            if totalSize.toNat % segmentSize.toNat = 0 then segmentSize.toNat
            else totalSize.toNat % segmentSize.toNat⟩) ∧
    (totalSize ≤ 0 →
      planSegments totalSize segmentSize = Except.error "InvalidSizeError") := by
  constructor
  · intro hT
    have hT' : 0 < totalSize.toNat := by omega
    have hS' : 0 < segmentSize.toNat := by omega
    obtain ⟨hq1, hub, hlb⟩ := plan_ceil_facts totalSize.toNat segmentSize.toNat hT' hS'
    refine ⟨planList totalSize.toNat segmentSize.toNat, ?_, ?_, ?_, ?_, ?_, ?_, ?_, ?_, ?_⟩
    · unfold planSegments
      rw [if_neg (by omega)]
    · exact planList_length _ _
    · rw [planList_length]
      exact hub
    · rw [planList_length]
      exact hlb
    · exact planList_sum _ _ hT' hS'
    · exact planList_pairwise _ _
    · exact planList_within _ _ hT' hS'
    · exact planList_cover _ _ hT' hS'
    · rw [planList_length]
      exact planList_last _ _ hT' hS'
  · intro hT
    unfold planSegments
    rw [if_pos hT]

/-- C4 witness: `totalSize = 5`, `segmentSize = 2` gives segments
`[0,2) [2,4) [4,5)`; `totalSize = -3` is rejected. -/
theorem C4_segment_planner_contract_witness :
    (∃ segs, planSegments 5 2 = Except.ok segs ∧
      segs.length = 3 ∧
      5 ≤ segs.length * 2 ∧
      (segs.length - 1) * 2 < 5 ∧
      (segs.map Segment.length).sum = 5 ∧
      segs.Pairwise (fun a b => a.offset + a.length ≤ b.offset) ∧
      (∀ sg ∈ segs, sg.offset + sg.length ≤ 5) ∧
      (∀ x < 5, ∃ sg ∈ segs, sg.offset ≤ x ∧ x < sg.offset + sg.length) ∧
      segs.getLast? = some ⟨segs.length - 1, (segs.length - 1) * 2,
        if 5 % 2 = 0 then 2 else 5 % 2⟩) ∧
    planSegments (-3) 2 = Except.error "InvalidSizeError" :=
  ⟨(C4_segment_planner_contract 5 2 (by norm_num)).1 (by norm_num),
   (C4_segment_planner_contract (-3) 2 (by norm_num)).2 (by norm_num)⟩

/-! ## Link-parsing claim (C10) -/

/-- C10, counterexample: the claim says a private-channel link with base
channel id string `s` parses to `int("-100" + s)`.  For
`t.me/c/012/5`, `uploader_script.py` first converts the component to an
integer (`int("012") = 12`) and formats it back, yielding
`int("-10012") = -10012`, while `int("-100" + "012") = -100012`: the two
disagree on components with leading zeros. -/
theorem C10_counterexample :
    us_parse_telegram_link "t.me/c/012/5" = Except.ok (-10012, 5) ∧
    pythonInt ("-100" ++ "012") = some (-100012) ∧
    (-10012 : Int) ≠ (-100012 : Int) := by
  refine ⟨by rfl, by rfl, by decide⟩

/-- C10, amended: when the cleaned link has at least two components and
the relevant components parse as integers, both parsers return the
integer value of the last component as message id; for a
private-channel link with base component `s`, `process_videos.py`
returns `int("-100" + s)` on the raw component, while
`uploader_script.py` returns `int("-100" + str(int(s)))` — the two
agree exactly when `s` is a canonical decimal numeral (no sign, no
leading zero).  A link with fewer than two components
(`process_videos.py`) or without a `c` component (`uploader_script.py`)
is rejected rather than parsed. -/
theorem C10_amended_link_parsing :
    (∀ (link : String) (m : Int),
      2 ≤ (pv_linkParts link).length →
      pythonInt (((pv_linkParts link).getLast?).getD "") = some m →
      ((((pv_linkParts link).head?).getD "" = "c" →
        ∀ cid : Int,
          pythonInt ("-100" ++ ((pv_linkParts link)[1]?.getD "")) = some cid →
          pv_parse_telegram_link link =
            Except.ok (PvEntityRef.channel cid, m)) ∧
       (((pv_linkParts link).head?).getD "" ≠ "c" →
        pv_parse_telegram_link link =
          Except.ok (PvEntityRef.username (((pv_linkParts link).head?).getD ""), m)))) ∧
    (∀ link : String, (pv_linkParts link).length < 2 →
      pv_parse_telegram_link link = Except.error "Invalid link format") ∧
    (∀ (link : String) (cIdx : Nat) (m b cid : Int),
      (us_linkParts link).findIdx? (fun p => p = "c") = some cIdx →
      pythonInt (((us_linkParts link).getLast?).getD "") = some m →
      cIdx + 1 < (us_linkParts link).length →
      pythonInt ((us_linkParts link)[cIdx + 1]?.getD "") = some b →
      pythonInt ("-100" ++ intToString b) = some cid →
      us_parse_telegram_link link = Except.ok (cid, m)) ∧
    (∀ link : String,
      (us_linkParts link).findIdx? (fun p => p = "c") = none →
      ∃ e, us_parse_telegram_link link = Except.error e) := by
  refine ⟨?_, ?_, ?_, ?_⟩
  · intro link m hlen hlast
    have hnot : ¬(pv_linkParts link).length < 2 := by omega
    constructor
    · intro hc cid hcid
      simp [pv_parse_telegram_link, hnot, hlast, hc, hcid]
    · intro hc
      simp [pv_parse_telegram_link, hnot, hlast, hc]
  · intro link h
    simp [pv_parse_telegram_link, h]
  · intro link cIdx m b cid hfind hlast hlen hbase hcid
    have hnot : ¬(us_linkParts link).length ≤ cIdx + 1 := by omega
    simp [us_parse_telegram_link, hfind, hlast, hnot, hbase, hcid]
  · intro link h
    exact ⟨"Link must contain a c component", by simp [us_parse_telegram_link, h]⟩

/-! ## Concrete-evaluation checks -/

/-- Independent check: a private-topic link resolves to the `-100`
prefixed channel id and the last component as message id. -/
theorem pv_parse_check :
    pv_parse_telegram_link "https://t.me/c/179123456/111/123" =
      Except.ok (PvEntityRef.channel (-100179123456), 123) := by rfl

/-- Independent check: a public-username link. -/
theorem pv_parse_public_check :
    pv_parse_telegram_link "t.me/username/123" =
      Except.ok (PvEntityRef.username "username", 123) := by rfl

/-- Independent check: the uploader_script parser on a canonical link. -/
theorem us_parse_check :
    us_parse_telegram_link "https://t.me/c/179123456/123" =
      Except.ok (-100179123456, 123) := by rfl

/-- Independent check: the planner on `totalSize = 5`, `segmentSize = 2`. -/
theorem planSegments_check :
    planSegments 5 2 = Except.ok [⟨0, 0, 2⟩, ⟨1, 2, 2⟩, ⟨2, 4, 1⟩] := by rfl

/-- Independent check: against an always-failing service the loop stops
after six calls on chunk 0 with the five backoff sleeps and no id. -/
theorem uploadLoop_exhaustion_check :
    uploadChunkLoop uploadEnvAllErr 0 0 0 =
      ⟨none, [0, 0, 0, 0, 0, 0], [2, 4, 8, 16, 32]⟩ := by
  simp [uploadChunkLoop, uploadEnvAllErr, maxRetries]

/-- Independent check: one transient failure on the first call is
retried on the same chunk after a 2-second sleep and the upload then
completes. -/
theorem uploadLoop_one_retry_check :
    uploadChunkLoop uploadEnvOneErr 0 0 0 =
      ⟨some "v", [0, 0, 1, 2], [2]⟩ := by
  simp [uploadChunkLoop, uploadEnvOneErr, maxRetries]
